import Mathlib

/-!
Verification development for the `hassutils` database layer
(`hassutils/database/database.py`).

Shallow embedding conventions:
* Python `float` values are modelled as rationals (`ℚ`); every arithmetic
  operation the code performs on temperatures is exact on the inputs used here.
* Python `datetime.datetime` arguments are modelled as abstract instants
  (`Nat`); the code under scrutiny never inspects them.
* Python exceptions become an explicit error type and fallible functions
  return `Except`.
* The sqlite `states` table is modelled as a list of rows; the source's
  `SELECT * from states WHERE domain=? AND entity_id LIKE ?` becomes a
  `List.filter`.  sqlite's `=` on text uses the BINARY collation
  (case-sensitive) and its `LIKE` is by default case-insensitive for ASCII
  characters, so `entity_id LIKE '%temperature%'` is modelled as
  ASCII-case-insensitive substring containment.
* The `attributes` column holds JSON text; only its validity and its
  string-valued fields are ever consumed (`friendly_name`,
  `unit_of_measurement`), so the cell is modelled as either unparseable text
  or a parsed object with string fields.
-/

/-- Errors raised by the Python code, one constructor per raise site /
library exception actually reachable. -/
inductive DbError where
  /-- `RuntimeError("Cannot convert temperatures into %s", units)` in
  `DataBase.process_temp_entry` (database.py line 94). -/
  | cannotConvertInto (units : String)
  /-- `RuntimeError("Cant convert %s into %s", current_unit, target_unit)` in
  `convert_temp_units` (database.py line 112). -/
  | cannotConvertUnits (cur tgt : String)
  /-- `json.JSONDecodeError` from `json.loads(entry[4])` (line 96). -/
  | jsonDecodeError
  /-- `KeyError` from `metadata[...]` lookups (lines 99, 101). -/
  | keyError (k : String)
  /-- `ValueError` from `float(entry[3])` (line 101). -/
  | valueError
  /-- `sqlite3.OperationalError: no such table` when a query names a table
  absent from the store (reachable from `count_table_entries`, line 58). -/
  | noSuchTable (t : String)
  deriving DecidableEq

/-- Boolean success test for `Except`. -/
def exceptIsOk {ε α : Type} : Except ε α → Bool
  | .ok _ => true
  | .error _ => false

/-- First-match association-list lookup, the model of Python dict lookup
(`UNIT_MAP[units]`, `metadata["friendly_name"]`, and of sqlite resolving a
table name). -/
def assocLookup {α : Type} : List (String × α) → String → Option α
  | [], _ => none
  | (k, v) :: rest, key => if k = key then some v else assocLookup rest key

/-- `startsWithChars s pat` : `pat` is an initial segment of `s`. -/
def startsWithChars : List Char → List Char → Bool
  | _, [] => true
  | [], _ :: _ => false
  | c :: cs, d :: ds => c == d && startsWithChars cs ds

/-- `containsChars s pat` : `pat` occurs contiguously inside `s`. -/
def containsChars : List Char → List Char → Bool
  | [], pat => pat.isEmpty
  | s@(_ :: rest), pat => startsWithChars s pat || containsChars rest pat

/-- ASCII-only lower-casing, the case folding sqlite's default `LIKE`
applies (sqlite folds only the characters A-Z). -/
def asciiLower (c : Char) : Char :=
  if 'A' ≤ c ∧ c ≤ 'Z' then Char.ofNat (c.toNat + 32) else c

/-- Model of the sqlite condition `entity_id LIKE '%temperature%'`
(database.py lines 82, 84).  The pattern has no wildcard other than the two
`%` anchors, so it holds exactly when the text contains `temperature`;
sqlite's default `LIKE` is case-insensitive for ASCII characters, hence the
lower-casing of the scrutinee (the pattern is already lower case). -/
def sqliteLikeTemperature (s : String) : Bool :=
  containsChars (s.data.map asciiLower) "temperature".data

/-- Table name constant (database.py line 11). -/
def EVENTS : String := "events"

/-- Table name constant (database.py line 12). -/
def RECORDER_RUNS : String := "recorder_runs"

/-- Table name constant (database.py line 13). -/
def SCHEMA_CHANGES : String := "schema_changes"

/-- Table name constant (database.py line 14). -/
def STATES : String := "states"

/-- The module-level table-name constants; the recognized table identifiers.
(No function of the source ever checks a name against this set.) -/
def recognizedTables : List String := [EVENTS, RECORDER_RUNS, SCHEMA_CHANGES, STATES]

/-- `UNIT_MAP` (database.py lines 20-23): unit-name keys to unit symbols.
The Python values are `"°C"` / `"°F"`, i.e. the two-character
degree-sign strings; note the misspelled key `farenheit`, verbatim from the
source. -/
def UNIT_MAP : List (String × String) := [("celsius", "°C"), ("farenheit", "°F")]

/-- The `attributes` column of a states row: JSON text, abstracted to
whether `json.loads` accepts it and, when it does, to its string-valued
fields (the only ones the code reads). -/
inductive AttrsCell where
  /-- Text rejected by `json.loads`. -/
  | invalid
  /-- A JSON object with string fields. -/
  | obj (fields : List (String × String))
  deriving DecidableEq

/-- `json.loads(entry[4])` (database.py line 96). -/
def jsonLoads : AttrsCell → Except DbError (List (String × String))
  | .invalid => .error .jsonDecodeError
  | .obj fields => .ok fields

/-- Python dict item access `metadata[k]`: the value when present, else a
`KeyError`. -/
def dictGet (fields : List (String × String)) (k : String) : Except DbError String :=
  match assocLookup fields k with
  | some v => .ok v
  | none => .error (.keyError k)

/-- One row of the `states` table, restricted to the columns the code
touches.  Fields correspond to the home-assistant schema positions used by
`process_temp_entry`: `domain` = entry[1], `entity_id` = entry[2],
`state` = entry[3], `attributes` = entry[4], `last_changed` = entry[6]. -/
structure StateRow where
  domain : String
  entity_id : String
  state : String
  attributes : AttrsCell
  last_changed : String
  deriving DecidableEq

/-- The database state visible to the code: the row counts sqlite would
report per table name, and the contents of the `states` table. -/
structure Db where
  tables : List (String × Nat)
  states : List StateRow

/-- `digitVal c` : the value of a decimal digit character. -/
def digitVal (c : Char) : Option Nat :=
  if c.isDigit then some (c.toNat - 48) else none

/-- A non-empty all-digit character list as a number. -/
def digitsToNat (cs : List Char) : Option Nat :=
  if cs.isEmpty then none
  else cs.foldl (fun acc c => do
    let a ← acc
    let d ← digitVal c
    pure (a * 10 + d)) (some 0)

/-- An unsigned decimal numeral, optionally with a fractional part. -/
def parseUnsigned (cs : List Char) : Option ℚ :=
  let intPart := cs.takeWhile (fun c => c != '.')
  match cs.dropWhile (fun c => c != '.') with
  | [] => (digitsToNat intPart).map (fun n => (n : ℚ))
  | '.' :: frac =>
    if intPart.isEmpty && frac.isEmpty then none
    else do
      let i ← if intPart.isEmpty then some 0 else digitsToNat intPart
      let f ← if frac.isEmpty then some 0 else digitsToNat frac
      pure ((i : ℚ) + (f : ℚ) / (10 : ℚ) ^ frac.length)
  | _ => none

/-- Python `float(entry[3])` (database.py line 101) on the decimal numerals
that occur as sensor state strings; any other text raises `ValueError`. -/
def pyFloat (s : String) : Except DbError ℚ :=
  match s.data with
  | '-' :: rest =>
    match parseUnsigned rest with
    | some q => .ok (-q)
    | none => .error .valueError
  | cs =>
    match parseUnsigned cs with
    | some q => .ok q
    | none => .error .valueError

/-- `convert_temp_units` (database.py lines 104-112), verbatim: the identity
branch compares the two unit strings; the two formula branches compare them
with the Python literals `"\\u00b0C"` and `"\\u00b0F"`, which are the
seven-character texts backslash-u-0-0-b-0-C / ...-F (the backslash is
escaped), not the degree-sign strings `UNIT_MAP` produces. -/
def convert_temp_units (value : ℚ) (current_unit target_unit : String) : Except DbError ℚ :=
  if current_unit = target_unit then
    .ok value
  else if target_unit = "\\u00b0C" ∧ current_unit = "\\u00b0F" then
    .ok ((value - 32) * 5 / 9)
  else if target_unit = "\\u00b0F" ∧ current_unit = "\\u00b0C" then
    .ok (value * 9 / 5 + 32)
  else
    .error (.cannotConvertUnits current_unit target_unit)

/-- `DataBase.process_temp_entry` (database.py lines 89-101).  Matches the
Python evaluation order: the `units` membership test in `UNIT_MAP`, then
`json.loads(entry[4])`, then `metadata["friendly_name"]`, then
`float(entry[3])`, then `metadata["unit_of_measurement"]`, then the unit
conversion; each failure raises out of the call. -/
def process_temp_entry (entry : StateRow) (units : String) :
    Except DbError (String × String × ℚ) :=
  match assocLookup UNIT_MAP units with
  | none => .error (.cannotConvertInto units)
  | some unitSym =>
    match jsonLoads entry.attributes with
    | .error e => .error e
    | .ok metadata =>
      match dictGet metadata "friendly_name" with
      | .error e => .error e
      | .ok name =>
        match pyFloat entry.state with
        | .error e => .error e
        | .ok v =>
          match dictGet metadata "unit_of_measurement" with
          | .error e => .error e
          | .ok uom =>
            match convert_temp_units v uom unitSym with
            | .error e => .error e
            | .ok temp => .ok (name, entry.last_changed, temp)

/-- The Python list comprehension `[self.process_temp_entry(row) for row in
temps]` (line 87) over a fallible body: elements are processed left to
right and the first exception aborts the whole comprehension. -/
def mapExcept {α β : Type} (f : α → Except DbError β) : List α → Except DbError (List β)
  | [] => .ok []
  | x :: xs =>
    match f x with
    | .error e => .error e
    | .ok y =>
      match mapExcept f xs with
      | .error e => .error e
      | .ok ys => .ok (y :: ys)

/-- `DataBase.fetch_temperature_readings` (database.py lines 75-87).  The
source accepts `from_date`, `to_date` (default `None`) and `units` (default
the misspelled `'celcius'`) but references none of them: the query is
exactly `SELECT * from states WHERE domain=? AND entity_id LIKE ?` with
parameters `"sensor"`, `"%temperature%"`, and `process_temp_entry` is called
with no second argument, so it always runs with its own default
`units='celsius'`. -/
def fetch_temperature_readings (db : Db) (from_date to_date : Option Nat)
    (units : String) : Except DbError (List (String × String × ℚ)) :=
  let temps := db.states.filter
    (fun r => r.domain == "sensor" && sqliteLikeTemperature r.entity_id)
  mapExcept (fun row => process_temp_entry row "celsius") temps

/-- `DataBase.count_table_entries` (database.py lines 57-60): the table name
is concatenated into `SELECT COUNT(*) from ` and the query executed with no
validation of any kind; sqlite answers with the count when the table exists
and raises `OperationalError: no such table` otherwise. -/
def count_table_entries (db : Db) (table : String) : Except DbError Nat :=
  match assocLookup db.tables table with
  | some n => .ok n
  | none => .error (.noSuchTable table)

deriving instance DecidableEq for Except

/-- `process_temp_entry` resolves its default `'celsius'` argument to the
degree-sign symbol via `UNIT_MAP`. -/
theorem lookupCelsius : assocLookup UNIT_MAP "celsius" = some "°C" := by decide

/-- A successful Python dict access, in terms of the underlying lookup. -/
theorem dictGet_some (fields : List (String × String)) (k v : String)
    (h : assocLookup fields k = some v) : dictGet fields k = .ok v := by
  simp [dictGet, h]

/-- A failing Python dict access raises `KeyError`. -/
theorem dictGet_none (fields : List (String × String)) (k : String)
    (h : assocLookup fields k = none) : dictGet fields k = .error (.keyError k) := by
  simp [dictGet, h]

/-- If the comprehension succeeded, every listed element was processed from
some input element. -/
theorem mapExcept_ok_mem {α β : Type} (f : α → Except DbError β) :
    ∀ (xs : List α) (l : List β), mapExcept f xs = .ok l →
      ∀ b ∈ l, ∃ a ∈ xs, f a = .ok b := by
  intro xs
  induction xs with
  | nil =>
    intro l h b hb
    simp only [mapExcept, Except.ok.injEq] at h
    subst h
    exact absurd hb (List.not_mem_nil b)
  | cons x xs ih =>
    intro l h b hb
    simp only [mapExcept] at h
    cases hfx : f x with
    | error e => rw [hfx] at h; exact Except.noConfusion h
    | ok y =>
      rw [hfx] at h
      cases hmx : mapExcept f xs with
      | error e => rw [hmx] at h; exact Except.noConfusion h
      | ok ys =>
        rw [hmx] at h
        simp only [Except.ok.injEq] at h
        subst h
        rcases List.mem_cons.mp hb with hby | hbys
        · exact ⟨x, List.mem_cons_self x xs, hby ▸ hfx⟩
        · obtain ⟨a, ha, hfa⟩ := ih ys hmx b hbys
          exact ⟨a, List.mem_cons_of_mem x ha, hfa⟩

/-- If the comprehension succeeded, processing succeeded on every input
element. -/
theorem mapExcept_ok_forall {α β : Type} (f : α → Except DbError β) :
    ∀ (xs : List α) (l : List β), mapExcept f xs = .ok l →
      ∀ a ∈ xs, ∃ b, f a = .ok b := by
  intro xs
  induction xs with
  | nil =>
    intro l _ a ha
    exact absurd ha (List.not_mem_nil a)
  | cons x xs ih =>
    intro l h a ha
    simp only [mapExcept] at h
    cases hfx : f x with
    | error e => rw [hfx] at h; exact Except.noConfusion h
    | ok y =>
      rw [hfx] at h
      cases hmx : mapExcept f xs with
      | error e => rw [hmx] at h; exact Except.noConfusion h
      | ok ys =>
        rcases List.mem_cons.mp ha with hax | hax
        · exact ⟨y, hax ▸ hfx⟩
        · exact ih ys hmx a hax

/-- Every reading a successful `fetch_temperature_readings` call returns was
produced by `process_temp_entry` (with its default unit) from a states row
that passed the query's two conditions. -/
theorem fetch_ok_provenance (db : Db) (f t : Option Nat) (u : String)
    (l : List (String × String × ℚ))
    (h : fetch_temperature_readings db f t u = .ok l)
    (r : String × String × ℚ) (hr : r ∈ l) :
    ∃ row, row ∈ db.states ∧ row.domain = "sensor" ∧
      sqliteLikeTemperature row.entity_id = true ∧
      process_temp_entry row "celsius" = .ok r := by
  simp only [fetch_temperature_readings] at h
  obtain ⟨row, hmem, hok⟩ := mapExcept_ok_mem _ _ _ h r hr
  obtain ⟨hmem2, hpred⟩ := List.mem_filter.mp hmem
  rw [Bool.and_eq_true] at hpred
  exact ⟨row, hmem2, by simpa using hpred.1, hpred.2, hok⟩

/-- A successful `process_temp_entry` call passes the row's `last_changed`
text through verbatim as the middle component of the returned tuple. -/
theorem process_ok_timestamp (row : StateRow) (units : String)
    (r : String × String × ℚ) (h : process_temp_entry row units = .ok r) :
    r.2.1 = row.last_changed := by
  simp only [process_temp_entry] at h
  repeat' split at h
  all_goals cases h <;> rfl

/-- A states row's `attributes` cell is malformed in the sense of the spec's
`MalformedMetadata`: the text is not valid JSON, or the object lacks
`friendly_name` or `unit_of_measurement`. -/
def attrsMalformedB : AttrsCell → Bool
  | .invalid => true
  | .obj fields =>
    (assocLookup fields "friendly_name").isNone ||
    (assocLookup fields "unit_of_measurement").isNone

/-- Processing a row with malformed `attributes` never succeeds: one of the
exceptions of `json.loads`, the key lookups, or `float` escapes the call. -/
theorem process_err_of_malformed (row : StateRow)
    (h : attrsMalformedB row.attributes = true) (b : String × String × ℚ) :
    process_temp_entry row "celsius" ≠ .ok b := by
  intro hok
  simp only [process_temp_entry, lookupCelsius] at hok
  cases hattr : row.attributes with
  | invalid =>
    rw [hattr] at hok
    simp only [jsonLoads] at hok
    exact Except.noConfusion hok
  | obj fields =>
    rw [hattr] at hok
    simp only [jsonLoads] at hok
    rw [hattr] at h
    simp only [attrsMalformedB, Bool.or_eq_true, Option.isNone_iff_eq_none] at h
    rcases h with h1 | h2
    · rw [dictGet_none fields "friendly_name" h1] at hok
      exact Except.noConfusion hok
    · cases hfn : assocLookup fields "friendly_name" with
      | none =>
        rw [dictGet_none fields "friendly_name" hfn] at hok
        exact Except.noConfusion hok
      | some name =>
        rw [dictGet_some fields "friendly_name" name hfn] at hok
        cases hpf : pyFloat row.state with
        | error e =>
          rw [hpf] at hok
          exact Except.noConfusion hok
        | ok v =>
          rw [hpf] at hok
          rw [dictGet_none fields "unit_of_measurement" h2] at hok
          exact Except.noConfusion hok

/-- A well-formed Celsius temperature row recorded at some instant;
used against inverted time bounds. -/
def rowC1 : StateRow :=
  { domain := "sensor", entity_id := "sensor.living_room_temperature",
    state := "21",
    attributes := .obj [("friendly_name", "Living Room"), ("unit_of_measurement", "°C")],
    last_changed := "2021-06-01 12:00:00.000000" }

/-- Database for the time-bounds claim. -/
def dbC1 : Db := { tables := [], states := [rowC1] }

/-- C1: the claim says rows are kept only when `last_changed` lies within
the supplied bounds and that inverted bounds yield an empty sequence.  The
source never references `from_date` or `to_date` (the query has no time
condition), so a call with `from_date` strictly after `to_date` still
returns the stored reading: with bounds `from = 100 > 50 = to` the call
returns a one-element sequence, not the empty one the claim requires. -/
theorem c1_bounds_ignored :
    (50 : Nat) < 100 ∧
    fetch_temperature_readings dbC1 (some 100) (some 50) "celsius" =
      .ok [("Living Room", "2021-06-01 12:00:00.000000", (21 : ℚ))] := by
  decide

/-- A well-formed Celsius temperature row; used against an unsupported
target unit. -/
def rowC2 : StateRow :=
  { domain := "sensor", entity_id := "sensor.bedroom_temperature",
    state := "19",
    attributes := .obj [("friendly_name", "Bedroom"), ("unit_of_measurement", "°C")],
    last_changed := "2021-06-02 08:00:00.000000" }

/-- Database for the unsupported-target-unit claim. -/
def dbC2 : Db := { tables := [], states := [rowC2] }

/-- C2: the claim says a `target_unit` that does not resolve via the
canonical unit names must fail the call with `UnsupportedUnit`.  The source
never forwards its `units` argument to `process_temp_entry`, which
therefore always runs with its own default `'celsius'`: calling with the
unresolvable unit `"kelvin"` (not a key of `UNIT_MAP`) silently succeeds
and returns the reading in Celsius. -/
theorem c2_target_unit_ignored :
    assocLookup UNIT_MAP "kelvin" = none ∧
    fetch_temperature_readings dbC2 none none "kelvin" =
      .ok [("Bedroom", "2021-06-02 08:00:00.000000", (19 : ℚ))] := by
  decide

/-- C3: the claim gives the two conversion formulas and the instances
`convert(0, celsius, fahrenheit) = 32`, `convert(100, celsius, fahrenheit)
= 212`, `convert(32, fahrenheit, celsius) = 0`.  In the source the two
formula branches compare the unit strings with the literals `"\\u00b0C"` /
`"\\u00b0F"` (a botched escape: seven-character texts starting with a
backslash), which match neither the canonical unit names nor the
degree-sign symbols `UNIT_MAP` produces, so every conversion between two
distinct recognizable units raises `RuntimeError`; the formulas compute the
claimed values only for the unreachable backslash literals. -/
theorem c3_formulas_unreachable :
    convert_temp_units 0 "celsius" "fahrenheit" =
      .error (.cannotConvertUnits "celsius" "fahrenheit") ∧
    convert_temp_units 0 "°C" "°F" = .error (.cannotConvertUnits "°C" "°F") ∧
    convert_temp_units 100 "°C" "°F" = .error (.cannotConvertUnits "°C" "°F") ∧
    convert_temp_units 32 "°F" "°C" = .error (.cannotConvertUnits "°F" "°C") ∧
    convert_temp_units 0 "\\u00b0C" "\\u00b0F" = .ok 32 ∧
    convert_temp_units 100 "\\u00b0C" "\\u00b0F" = .ok 212 ∧
    convert_temp_units 32 "\\u00b0F" "\\u00b0C" = .ok 0 := by
  refine ⟨by decide, by decide, by decide, by decide, ?_, ?_, ?_⟩
  · rw [convert_temp_units, if_neg (by decide), if_neg (by decide), if_pos (by decide)]
    norm_num
  · rw [convert_temp_units, if_neg (by decide), if_neg (by decide), if_pos (by decide)]
    norm_num
  · rw [convert_temp_units, if_neg (by decide), if_pos (by decide)]
    norm_num

/-- A well-formed row except that its `last_changed` text is not a
timestamp in any format. -/
def rowC4 : StateRow :=
  { domain := "sensor", entity_id := "sensor.attic_temperature",
    state := "18",
    attributes := .obj [("friendly_name", "Attic"), ("unit_of_measurement", "°C")],
    last_changed := "not-a-timestamp" }

/-- Database for the timestamp claim. -/
def dbC4 : Db := { tables := [], states := [rowC4] }

/-- C4, counterexample: the claim says the emitted timestamp is the instant
parsed from `last_changed` in the format `YYYY-MM-DD HH:MM:SS.ffffff` and
that unparseable text fails the call with `MalformedTimestamp`.  The source
returns `entry[6]` verbatim (its annotated return type is
`Tuple[str, str, float]`) and never parses it: a row whose `last_changed`
is `"not-a-timestamp"` is emitted successfully with that raw text. -/
theorem c4_timestamp_not_parsed :
    rowC4.last_changed = "not-a-timestamp" ∧
    fetch_temperature_readings dbC4 none none "celsius" =
      .ok [("Attic", "not-a-timestamp", (18 : ℚ))] := by
  decide

/-- C4, amended: the `timestamp` field of every emitted reading is the
row's raw `last_changed` text, passed through unparsed; no timestamp
format validation happens and no `MalformedTimestamp` failure exists. -/
theorem c4_timestamp_is_raw_text (db : Db) (f t : Option Nat) (u : String)
    (l : List (String × String × ℚ))
    (h : fetch_temperature_readings db f t u = .ok l)
    (r : String × String × ℚ) (hr : r ∈ l) :
    ∃ row, row ∈ db.states ∧ r.2.1 = row.last_changed := by
  obtain ⟨row, hmem, _, _, hok⟩ := fetch_ok_provenance db f t u l h r hr
  exact ⟨row, hmem, process_ok_timestamp row "celsius" r hok⟩

/-- C4 witness: the amended statement applied to the concrete database
whose one row has the unparseable `last_changed`. -/
theorem c4_timestamp_is_raw_text_witness :
    ∃ row, row ∈ dbC4.states ∧
      (("Attic", "not-a-timestamp", (18 : ℚ)) : String × String × ℚ).2.1 =
        row.last_changed :=
  c4_timestamp_is_raw_text dbC4 none none "celsius"
    [("Attic", "not-a-timestamp", (18 : ℚ))] (by decide)
    ("Attic", "not-a-timestamp", (18 : ℚ)) (by decide)

/-- A well-formed temperature row whose `entity_id` spells TEMPERATURE in
upper case, so it does not contain the lower-case substring. -/
def rowC5 : StateRow :=
  { domain := "sensor", entity_id := "sensor.outdoor_TEMPERATURE",
    state := "7",
    attributes := .obj [("friendly_name", "Outdoor"), ("unit_of_measurement", "°C")],
    last_changed := "2021-06-03 06:00:00.000000" }

/-- Database for the row-filter invariant claim. -/
def dbC5 : Db := { tables := [], states := [rowC5] }

/-- C5, counterexample: the claim says every emitted reading comes from a
row whose `entity_id` contains the substring `"temperature"`.  sqlite's
default `LIKE` matches ASCII letters case-insensitively, so the row with
`entity_id = "sensor.outdoor_TEMPERATURE"` — which does not contain the
lower-case substring — still produces a reading. -/
theorem c5_like_is_case_insensitive :
    dbC5.states.all
      (fun row => !containsChars row.entity_id.data "temperature".data) = true ∧
    fetch_temperature_readings dbC5 none none "celsius" =
      .ok [("Outdoor", "2021-06-03 06:00:00.000000", (7 : ℚ))] := by
  decide

/-- C5, amended: every reading emitted by a successful call comes from a
states row whose `domain` equals `"sensor"` exactly and whose `entity_id`
contains `"temperature"` up to ASCII case (the sqlite `LIKE
'%temperature%'` condition); a row failing either condition contributes no
record. -/
theorem c5_readings_only_from_matching_rows (db : Db) (f t : Option Nat)
    (u : String) (l : List (String × String × ℚ))
    (h : fetch_temperature_readings db f t u = .ok l)
    (r : String × String × ℚ) (hr : r ∈ l) :
    ∃ row, row ∈ db.states ∧ row.domain = "sensor" ∧
      sqliteLikeTemperature row.entity_id = true ∧
      process_temp_entry row "celsius" = .ok r :=
  fetch_ok_provenance db f t u l h r hr

/-- C5 witness: the amended statement applied to the concrete database. -/
theorem c5_readings_only_from_matching_rows_witness :
    ∃ row, row ∈ dbC5.states ∧ row.domain = "sensor" ∧
      sqliteLikeTemperature row.entity_id = true ∧
      process_temp_entry row "celsius" =
        .ok ("Outdoor", "2021-06-03 06:00:00.000000", (7 : ℚ)) :=
  c5_readings_only_from_matching_rows dbC5 none none "celsius"
    [("Outdoor", "2021-06-03 06:00:00.000000", (7 : ℚ))] (by decide)
    ("Outdoor", "2021-06-03 06:00:00.000000", (7 : ℚ)) (by decide)

/-- C6: the claim is the round-trip law over the canonical unit names.
Because the formula branches compare against the backslash literals (see
the C3 theorem), the very first conversion of the round trip raises
`RuntimeError` for every value; the round trip does hold — exactly, over
the rationals — on the unreachable literal strings the code compares
against. -/
theorem c6_roundtrip_unreachable (v : ℚ) :
    convert_temp_units v "celsius" "fahrenheit" =
      .error (.cannotConvertUnits "celsius" "fahrenheit") ∧
    (convert_temp_units v "\\u00b0C" "\\u00b0F").bind
      (fun w => convert_temp_units w "\\u00b0F" "\\u00b0C") = .ok v := by
  constructor
  · rw [convert_temp_units, if_neg (by decide), if_neg (by decide), if_neg (by decide)]
  · rw [convert_temp_units, if_neg (by decide), if_neg (by decide), if_pos (by decide)]
    show convert_temp_units (v * 9 / 5 + 32) "\\u00b0F" "\\u00b0C" = .ok v
    rw [convert_temp_units, if_neg (by decide), if_pos (by decide)]
    congr 1
    ring

/-- C7: converting any value from a unit to that same unit returns the
value unchanged, exactly: the first branch of `convert_temp_units` compares
the two unit strings and returns `value` untouched, for arbitrary unit
names (recognized or not). -/
theorem c7_identity_conversion (v : ℚ) (u : String) :
    convert_temp_units v u u = .ok v := by
  rw [convert_temp_units, if_pos rfl]

/-- C8: if some row matching the query has malformed `attributes` (invalid
JSON, or missing `friendly_name` / `unit_of_measurement`), the whole call
fails: the exception escapes the list comprehension, so no partial sequence
of previously processed rows is returned. -/
theorem c8_malformed_metadata_aborts_call (db : Db) (f t : Option Nat)
    (u : String)
    (h : db.states.any (fun r => r.domain == "sensor" &&
          sqliteLikeTemperature r.entity_id && attrsMalformedB r.attributes) = true) :
    exceptIsOk (fetch_temperature_readings db f t u) = false := by
  cases hfe : fetch_temperature_readings db f t u with
  | error e => rfl
  | ok l =>
    exfalso
    rw [List.any_eq_true] at h
    obtain ⟨row, hrow, hp⟩ := h
    rw [Bool.and_eq_true, Bool.and_eq_true] at hp
    obtain ⟨⟨hdom, hlike⟩, hmal⟩ := hp
    have hfilter : row ∈ db.states.filter
        (fun r => r.domain == "sensor" && sqliteLikeTemperature r.entity_id) :=
      List.mem_filter.mpr ⟨hrow, by rw [Bool.and_eq_true]; exact ⟨hdom, hlike⟩⟩
    have h2 : mapExcept (fun row => process_temp_entry row "celsius")
        (db.states.filter
          (fun r => r.domain == "sensor" && sqliteLikeTemperature r.entity_id)) = .ok l := by
      simpa [fetch_temperature_readings] using hfe
    obtain ⟨bb, hbb⟩ := mapExcept_ok_forall _ _ _ h2 row hfilter
    exact process_err_of_malformed row hmal bb hbb

/-- A well-formed row followed by a row whose `attributes` text is invalid
JSON: the first row alone would yield a reading, the second aborts the
call, so no partial result is observable. -/
def dbC8 : Db :=
  { tables := [],
    states :=
      [{ domain := "sensor", entity_id := "sensor.kitchen_temperature",
         state := "23",
         attributes := .obj [("friendly_name", "Kitchen"), ("unit_of_measurement", "°C")],
         last_changed := "2021-06-04 09:00:00.000000" },
       { domain := "sensor", entity_id := "sensor.hall_temperature",
         state := "22", attributes := .invalid,
         last_changed := "2021-06-04 09:05:00.000000" }] }

/-- C8 witness: the statement applied to a database whose second matching
row has unparseable `attributes`. -/
theorem c8_malformed_metadata_aborts_call_witness :
    dbC8.states.any (fun r => r.domain == "sensor" &&
      sqliteLikeTemperature r.entity_id && attrsMalformedB r.attributes) = true ∧
    exceptIsOk (fetch_temperature_readings dbC8 none none "celsius") = false :=
  ⟨by decide, c8_malformed_metadata_aborts_call dbC8 none none "celsius" (by decide)⟩

/-- A store that happens to contain a table named `foo`, which is not one
of the four recognized table identifiers. -/
def dbC9 : Db := { tables := [("foo", 3)], states := [] }

/-- C9, counterexample: the claim says `count_table_entries` fails with
`UnknownTable` for a name outside the recognized identifiers instead of
issuing a query.  The source concatenates the name into the SQL text with
no validation whatsoever, so on a store containing a table `foo` the call
succeeds and returns its count. -/
theorem c9_no_unknown_table_failure :
    ("foo" ∈ recognizedTables → False) ∧
    count_table_entries dbC9 "foo" = .ok 3 := by
  decide

/-- C9, amended: `count_table_entries` performs no table-name validation —
an unrecognized name is still sent to the store, and when the store has a
table of that name the call returns its row count (an absent table
surfaces as the storage engine's own error, never as a pre-query
`UnknownTable` check). -/
theorem c9_query_issued_without_validation (db : Db) (t : String) (n : Nat)
    (h1 : t ∈ recognizedTables → False)
    (h2 : assocLookup db.tables t = some n) :
    count_table_entries db t = .ok n := by
  rw [count_table_entries, h2]

/-- C9 witness: the amended statement applied to the concrete store. -/
theorem c9_query_issued_without_validation_witness :
    ("foo" ∈ recognizedTables → False) ∧
    assocLookup dbC9.tables "foo" = some 3 ∧
    count_table_entries dbC9 "foo" = .ok 3 :=
  ⟨by decide, by decide,
    c9_query_issued_without_validation dbC9 "foo" 3 (by decide) (by decide)⟩

/-- C10: the result of `fetch_temperature_readings` depends only on the
database contents — `from_date`, `to_date` and `units` are accepted but
never used, so any two calls over the same database return identical
results. -/
theorem c10_parameters_never_used (db : Db) (f1 t1 : Option Nat) (u1 : String)
    (f2 t2 : Option Nat) (u2 : String) :
    fetch_temperature_readings db f1 t1 u1 = fetch_temperature_readings db f2 t2 u2 :=
  rfl
